import Mathlib

/-!
Shallow embedding of the ai-audio-vision-lab repository
(`src/interfaces/vision_interface.py`, `src/interfaces/audio_interface.py`,
`demo/simple_demo.py`) and proofs about its claims.

Conventions of the embedding:
* Python `float` values are modelled as `ℚ`; Python `int` as `Int`
  (or `Nat` where the value is an index or a count).
* Python dataclasses become Lean structures with the same field names and
  the same default values.
* Randomness (`random.randint`, `random.choice`, `random.uniform`) is
  modelled by threading an explicit source of draws; `randint(a, b)` with
  draw `r` becomes `a + r % (b - a + 1)`, which has exactly the codomain
  of the Python call, and `uniform(a, b)` becomes `a + (b - a) * clamp01 q`
  for an arbitrary rational draw `q`.
* Wall-clock reads (`time.time()`) are modelled by an explicit `now : ℚ`
  argument.
-/

/-- The `ConfidenceLevel` enum (vision_interface.py): confidence levels for
object detection. -/
inductive ConfidenceLevel where
  | LOW
  | MEDIUM
  | HIGH
  | VERY_HIGH
deriving DecidableEq, Repr

/-- The `BoundingBox` dataclass (vision_interface.py): integer x, y, width,
height.  The Python dataclass performs no validation of its fields. -/
structure BoundingBox where
  x : Int
  y : Int
  width : Int
  height : Int
deriving DecidableEq, Repr

/-- Source `BoundingBox.center`: Python `//` is floor division, hence `Int.fdiv`. -/
def BoundingBox.center (b : BoundingBox) : Int × Int :=
  (b.x + b.width.fdiv 2, b.y + b.height.fdiv 2)

/-- Source `BoundingBox.area`: `width * height`. -/
def BoundingBox.area (b : BoundingBox) : Int :=
  b.width * b.height

/-- The `DetectedObject` dataclass (vision_interface.py).  The two optional
feature maps are Python dicts of floats, modelled as association lists. -/
structure DetectedObject where
  object_id : String
  class_name : String
  confidence : ℚ
  bounding_box : BoundingBox
  timestamp : ℚ
  semantic_properties : Option (List (String × ℚ)) := none
  emotional_associations : Option (List (String × ℚ)) := none
deriving DecidableEq, Repr

/-- Source `DetectedObject.confidence_level` (vision_interface.py lines 63-73):
numerical confidence to categorical level. -/
def DetectedObject.confidence_level (d : DetectedObject) : ConfidenceLevel :=
  if d.confidence ≥ 0.9 then ConfidenceLevel.VERY_HIGH
  else if d.confidence ≥ 0.75 then ConfidenceLevel.HIGH
  else if d.confidence ≥ 0.5 then ConfidenceLevel.MEDIUM
  else ConfidenceLevel.LOW

/-- Source `DetectedObject.is_reliable` (vision_interface.py lines 75-77):
`confidence >= threshold`, threshold defaulting to `0.7`. -/
def DetectedObject.is_reliable (d : DetectedObject) (threshold : ℚ := 0.7) : Bool :=
  decide (d.confidence ≥ threshold)

/-- A rank embedding of `ConfidenceLevel` into `Nat`, in the order
LOW < MEDIUM < HIGH < VERY_HIGH, used to state monotonicity. -/
def levelRank : ConfidenceLevel → Nat
  | ConfidenceLevel.LOW => 0
  | ConfidenceLevel.MEDIUM => 1
  | ConfidenceLevel.HIGH => 2
  | ConfidenceLevel.VERY_HIGH => 3

/-- The `FrameMetadata` dataclass (vision_interface.py). -/
structure FrameMetadata where
  frame_id : Int
  timestamp : ℚ
  resolution : Int × Int
  fps : Option ℚ := none
  lighting_conditions : Option String := none
deriving DecidableEq, Repr

/-- The decimal digit character for a digit value (`str` rendering of a
single decimal digit), computed from the ASCII code 48 of `'0'`.  Values
`≥ 9` clamp to `'9'`; the function is only ever applied to digits `< 10`. -/
def digitChar (d : Nat) : Char :=
  Char.ofNat (48 + min d 9)

/-- Little-endian decimal digits, by structural recursion on a fuel bound
(so that the kernel can evaluate it); the fuel is always at least the
number. -/
def natDigitsRevAux : Nat → Nat → List Nat
  | _, 0 => []
  | 0, _ + 1 => []
  | fuel + 1, n + 1 => ((n + 1) % 10) :: natDigitsRevAux fuel ((n + 1) / 10)

/-- Little-endian list of decimal digit values of a natural number
(empty for 0). -/
def natDigitsRev (n : Nat) : List Nat := natDigitsRevAux n n

/-- Python `str` of a natural number: its decimal digits, most significant
first. -/
def pyNatStr (n : Nat) : String :=
  if n = 0 then "0" else String.mk ((natDigitsRev n).reverse.map digitChar)

/-- Python `str` of an integer: decimal digits with a leading `-` when
negative. -/
def pyIntStr (i : Int) : String :=
  if i < 0 then "-" ++ pyNatStr i.natAbs else pyNatStr i.natAbs

/-- State of `MockVisionProcessor`: the `initialized` flag and the list of
supported class names set in `__init__`. -/
structure MockVisionProcessor where
  initialized : Bool
  supported_classes : List String
deriving Repr

/-- A freshly constructed `MockVisionProcessor` (`__init__`):
`initialized = False` and the ten demo class names. -/
def MockVisionProcessor.new : MockVisionProcessor :=
  { initialized := false
    supported_classes :=
      ["plant", "book", "cup", "laptop", "phone",
       "bottle", "clock", "lamp", "camera", "guitar"] }

/-- A video frame, reduced to its shape (`frame.shape[0] = height`,
`frame.shape[1] = width`); pixel contents are never read by the mock. -/
structure Frame where
  height : Nat
  width : Nat
deriving DecidableEq, Repr

/-- An explicit source of random draws for `MockVisionProcessor.detect_objects`:
one draw for the number of objects and per-object draws for the class
choice, the confidence and the bounding-box coordinates. -/
structure MockRandom where
  numDraw : Nat
  classDraw : Nat → Nat
  confDraw : Nat → ℚ
  xDraw : Nat → Nat
  yDraw : Nat → Nat
  wDraw : Nat → Nat
  hDraw : Nat → Nat

/-- Clamp a rational to `[0, 1]`; used to model the codomain of
`random.uniform`. -/
def clamp01 (q : ℚ) : ℚ := max 0 (min 1 q)

/-- Source `MockVisionProcessor.detect_objects` (vision_interface.py lines 412-444):
returns `[]` when not initialized; otherwise simulates the detection of
1-3 objects, with `class_name` drawn from `supported_classes`, confidence
drawn from `[0.6, 0.95]`, `x ∈ [0, width-100]`, `y ∈ [0, height-100]`, and
box width and height drawn from `[50, 150]`.  The sample values of the
draws are supplied by `r`; `now` models `time.time()`. -/
def MockVisionProcessor.detect_objects (st : MockVisionProcessor) (frame : Frame)
    (r : MockRandom) (now : ℚ) : List DetectedObject :=
  if st.initialized = false then []
  else
    let num := 1 + r.numDraw % 3
    (List.range num).map (fun i =>
      { object_id := "obj_" ++ pyNatStr i
        class_name := st.supported_classes.getD
          (r.classDraw i % st.supported_classes.length) ""
        confidence := 0.6 + 0.35 * clamp01 (r.confDraw i)
        bounding_box :=
          { x := (r.xDraw i % (frame.width - 100 + 1) : Nat)
            y := (r.yDraw i % (frame.height - 100 + 1) : Nat)
            width := (50 + r.wDraw i % 101 : Nat)
            height := (50 + r.hDraw i % 101 : Nat) }
        timestamp := now })

/-- One entry of the demo's object-to-music mapping table
(`_load_music_mappings`). -/
structure DemoParams where
  style : String
  tempo : Nat
  key : String
  instruments : List String
  mood : String
  sample_file : String
deriving DecidableEq, Repr

/-- Source `ObjectToMusicDemo._load_music_mappings` (simple_demo.py lines 54-102):
the predefined object-to-music mapping table. -/
def ObjectToMusicDemo.music_mappings : List (String × DemoParams) :=
  [("plant",
    { style := "Ambient", tempo := 72, key := "C Major"
      instruments := ["Pad Synth", "Soft Strings"]
      mood := "Peaceful, Natural", sample_file := "plant_ambient.mp3" }),
   ("book",
    { style := "Neoclassical", tempo := 60, key := "A Minor"
      instruments := ["Piano", "String Quartet"]
      mood := "Contemplative, Intellectual", sample_file := "book_classical.mp3" }),
   ("cup",
    { style := "Jazz", tempo := 95, key := "F Major"
      instruments := ["Piano", "Upright Bass", "Brush Drums"]
      mood := "Cozy, Intimate", sample_file := "cup_jazz.mp3" }),
   ("laptop",
    { style := "Electronic", tempo := 128, key := "D Minor"
      instruments := ["Synthesizer", "Digital Drums"]
      mood := "Modern, Focused", sample_file := "laptop_electronic.mp3" }),
   ("guitar",
    { style := "Folk", tempo := 85, key := "G Major"
      instruments := ["Acoustic Guitar", "Light Percussion"]
      mood := "Warm, Nostalgic", sample_file := "guitar_folk.mp3" })]

/-- The fallback parameter set for unknown objects
(simple_demo.py lines 139-147). -/
def ObjectToMusicDemo.default_params : DemoParams :=
  { style := "Ambient", tempo := 80, key := "C Major"
    instruments := ["Synth Pad"], mood := "Neutral"
    sample_file := "default_ambient.mp3" }

/-- Source `ObjectToMusicDemo.generate_music_params` (simple_demo.py lines 122-153):
look the detected object up in the mapping table, falling back to the
default neutral parameter set when absent. -/
def ObjectToMusicDemo.generate_music_params (detected_object : String) : DemoParams :=
  match ObjectToMusicDemo.music_mappings.lookup detected_object with
  | some params => params
  | none => ObjectToMusicDemo.default_params

/-- A sample high-confidence detection used by witnesses. -/
def dVeryHigh : DetectedObject :=
  { object_id := "obj_0", class_name := "guitar", confidence := 0.95
    bounding_box := { x := 0, y := 0, width := 10, height := 10 }
    timestamp := 0 }

/-- A sample medium-confidence detection used by witnesses. -/
def dMedium : DetectedObject :=
  { object_id := "obj_1", class_name := "cup", confidence := 0.6
    bounding_box := { x := 0, y := 0, width := 10, height := 20 }
    timestamp := 0 }

/-- A concrete all-zero draw source used by witnesses. -/
def rZero : MockRandom :=
  { numDraw := 0, classDraw := fun _ => 0, confDraw := fun _ => 0
    xDraw := fun _ => 0, yDraw := fun _ => 0
    wDraw := fun _ => 0, hDraw := fun _ => 0 }

/-- Modelled from the spec: the strict "ranks higher" order used by
dominant-object selection — `a` ranks strictly higher than `b` when it has
strictly higher confidence, or equal confidence and strictly larger
bounding-box area.  (The repository contains no implementation of
`process_objects`; only the abstract interface is in src.) -/
def detBetter (a b : DetectedObject) : Prop :=
  b.confidence < a.confidence ∨
    (a.confidence = b.confidence ∧ b.bounding_box.area < a.bounding_box.area)

instance (a b : DetectedObject) : Decidable (detBetter a b) := by
  unfold detBetter; infer_instance

/-- Left fold keeping the current best detection, replaced only by a
strictly better one (so the earliest of equally ranked detections is
kept). -/
def pickBest (b : DetectedObject) : List DetectedObject → DetectedObject
  | [] => b
  | d :: t => pickBest (if detBetter d b then d else b) t

/-- Modelled from the spec: dominant-object selection — highest
confidence, ties broken by larger bounding-box area, remaining ties broken
by earliest position in the input ordering.  Returns `none` on an empty
list. -/
def RealTimeMusicProcessor.selectDominant : List DetectedObject → Option DetectedObject
  | [] => none
  | d :: t => some (pickBest d t)

/-- The spec's tie-break example: class A, confidence 0.8, area 100. -/
def dTieA : DetectedObject :=
  { object_id := "a", class_name := "classA", confidence := 0.8
    bounding_box := { x := 0, y := 0, width := 10, height := 10 }
    timestamp := 0 }

/-- The spec's tie-break example: class B, confidence 0.8, area 200. -/
def dTieB : DetectedObject :=
  { object_id := "b", class_name := "classB", confidence := 0.8
    bounding_box := { x := 0, y := 0, width := 10, height := 20 }
    timestamp := 0 }

/-- The `MusicStyle` enum (audio_interface.py lines 19-28). -/
inductive MusicStyle where
  | AMBIENT
  | CLASSICAL
  | JAZZ
  | ELECTRONIC
  | FOLK
  | ROCK
  | WORLD
  | EXPERIMENTAL
deriving DecidableEq, Repr

/-- Source `MusicStyle.value`: the string value of each enum member. -/
def MusicStyle.value : MusicStyle → String
  | MusicStyle.AMBIENT => "ambient"
  | MusicStyle.CLASSICAL => "classical"
  | MusicStyle.JAZZ => "jazz"
  | MusicStyle.ELECTRONIC => "electronic"
  | MusicStyle.FOLK => "folk"
  | MusicStyle.ROCK => "rock"
  | MusicStyle.WORLD => "world"
  | MusicStyle.EXPERIMENTAL => "experimental"

/-- The `InstrumentFamily` enum (audio_interface.py lines 31-40). -/
inductive InstrumentFamily where
  | PIANO
  | STRINGS
  | BRASS
  | WOODWINDS
  | PERCUSSION
  | SYNTHESIZER
  | GUITAR
  | BASS
deriving DecidableEq, Repr

/-- Source `InstrumentFamily.value`: the string value of each enum member. -/
def InstrumentFamily.value : InstrumentFamily → String
  | InstrumentFamily.PIANO => "piano"
  | InstrumentFamily.STRINGS => "strings"
  | InstrumentFamily.BRASS => "brass"
  | InstrumentFamily.WOODWINDS => "woodwinds"
  | InstrumentFamily.PERCUSSION => "percussion"
  | InstrumentFamily.SYNTHESIZER => "synthesizer"
  | InstrumentFamily.GUITAR => "guitar"
  | InstrumentFamily.BASS => "bass"

/-- The `MusicalKey` dataclass (audio_interface.py lines 43-50): tonic and
mode, both plain strings in the source. -/
structure MusicalKey where
  tonic : String
  mode : String
deriving DecidableEq, Repr

/-- Python `str.lower()` restricted to ASCII (`Char.toLower`). -/
def pyLower (s : String) : String :=
  String.mk (s.toList.map Char.toLower)

/-- Helper for Python `str.title()`: the flag records whether the previous
character was alphabetic. -/
def pyTitleAux : Bool → List Char → List Char
  | _, [] => []
  | prevAlpha, c :: cs =>
    (if c.isAlpha then (if prevAlpha then c.toLower else c.toUpper) else c) ::
      pyTitleAux c.isAlpha cs

/-- Python `str.title()` restricted to ASCII: the first letter of each
word is uppercased, the following letters lowercased. -/
def pyTitle (s : String) : String :=
  String.mk (pyTitleAux false s.toList)

/-- Source `MusicalKey.__str__` (audio_interface.py lines 49-50):
`f"{self.tonic} {self.mode.title()}"`. -/
def MusicalKey.toStr (k : MusicalKey) : String :=
  k.tonic ++ " " ++ pyTitle k.mode

/-- The `TimeSignature` dataclass (audio_interface.py lines 53-60). -/
structure TimeSignature where
  numerator : Int
  denominator : Int
deriving DecidableEq, Repr

/-- Source `TimeSignature.__str__` (audio_interface.py lines 59-60):
`f"{self.numerator}/{self.denominator}"`. -/
def TimeSignature.toStr (ts : TimeSignature) : String :=
  pyIntStr ts.numerator ++ "/" ++ pyIntStr ts.denominator

/-- The `MusicalParameters` dataclass (audio_interface.py lines 63-96), with
the dataclass's default values. -/
structure MusicalParameters where
  tempo : Int
  key : MusicalKey
  time_signature : TimeSignature
  style : MusicStyle
  primary_instruments : List InstrumentFamily
  secondary_instruments : Option (List InstrumentFamily) := none
  energy_level : ℚ := 0.5
  complexity : ℚ := 0.5
  brightness : ℚ := 0.5
  tension : ℚ := 0.5
  duration : ℚ := 30.0
  fade_in : ℚ := 2.0
  fade_out : ℚ := 2.0
  harmonic_richness : ℚ := 0.5
  rhythmic_complexity : ℚ := 0.5
  melodic_range : String := "medium"
deriving DecidableEq, Repr

/-- The flat record produced by `MusicalParameters.to_dict`
(audio_interface.py lines 98-115): exactly the fourteen serialized fields,
with their Python value types. -/
structure ParamsDict where
  tempo : Int
  key : String
  time_signature : String
  style : String
  primary_instruments : List String
  secondary_instruments : List String
  energy_level : ℚ
  complexity : ℚ
  brightness : ℚ
  tension : ℚ
  duration : ℚ
  harmonic_richness : ℚ
  rhythmic_complexity : ℚ
  melodic_range : String
deriving DecidableEq, Repr

/-- Source `MusicalParameters.to_dict` (audio_interface.py lines 98-115).  A
`None` secondary-instruments field (and, by Python truthiness, also an
empty one) serializes to the empty list.  `fade_in` and `fade_out` are not
serialized. -/
def MusicalParameters.to_dict (p : MusicalParameters) : ParamsDict :=
  { tempo := p.tempo
    key := p.key.toStr
    time_signature := p.time_signature.toStr
    style := p.style.value
    primary_instruments := p.primary_instruments.map InstrumentFamily.value
    secondary_instruments :=
      match p.secondary_instruments with
      | none => []
      | some l => l.map InstrumentFamily.value
    energy_level := p.energy_level
    complexity := p.complexity
    brightness := p.brightness
    tension := p.tension
    duration := p.duration
    harmonic_richness := p.harmonic_richness
    rhythmic_complexity := p.rhythmic_complexity
    melodic_range := p.melodic_range }

/-- The `GeneratedAudio` dataclass (audio_interface.py lines 118-136).  The
sample buffer is a numpy float array, modelled as a list of rationals. -/
structure GeneratedAudio where
  audio_data : List ℚ
  sample_rate : Nat
  duration : ℚ
  parameters : MusicalParameters
  midi_data : Option (List Nat) := none
  generation_time : Option ℚ := none
deriving DecidableEq, Repr

/-- Source `GeneratedAudio.num_samples`. -/
def GeneratedAudio.num_samples (g : GeneratedAudio) : Nat :=
  g.audio_data.length

/-- Python `int()` applied to a rational: truncation toward zero. -/
def pyInt (q : ℚ) : Int :=
  if q < 0 then -(⌊-q⌋) else ⌊q⌋

/-- Source `MockMusicGenerator.generate_music` (audio_interface.py lines 491-519):
`sample_rate = 44100`, `duration = min(parameters.duration, 10.0)`,
`samples = int(sample_rate * duration)`, and an `np.linspace`-driven sine
buffer of exactly `samples` entries.  The sample values
(`0.3 * sin(2 π f t)`, with `f` looked up from the key's tonic) are real
numbers irrelevant to every claim; the buffer is modelled as `samples`
zero entries, keeping its length faithful.  `now` models the `time.time()`
value stored in `generation_time`; the `time.sleep` call has no modelled
effect. -/
def MockMusicGenerator.generate_music (parameters : MusicalParameters)
    (now : ℚ) : GeneratedAudio :=
  let sample_rate : Nat := 44100
  let duration := min parameters.duration 10
  let samples := (pyInt (44100 * duration)).toNat
  { audio_data := List.replicate samples 0
    sample_rate := sample_rate
    duration := duration
    parameters := parameters
    midi_data := none
    generation_time := some now }

/-- Source `MockMusicGenerator.generate_transition` (audio_interface.py lines
521-527).  The Python body executes `to_params.duration =
transition_duration` — an in-place mutation of the caller's instance —
then returns `generate_music(to_params)`.  The mutation is modelled by
returning the final states of both argument instances alongside the
generated audio: the result is `(from_params', to_params', audio)`. -/
def MockMusicGenerator.generate_transition (from_params to_params : MusicalParameters)
    (transition_duration : ℚ := 4.0) (now : ℚ := 0) :
    MusicalParameters × MusicalParameters × GeneratedAudio :=
  let mutated := { to_params with duration := transition_duration }
  (from_params, mutated, MockMusicGenerator.generate_music mutated now)

/-- Source `MockMusicGenerator.estimate_generation_time` (audio_interface.py
lines 535-536): `min(2.0, parameters.duration * 0.1)`. -/
def MockMusicGenerator.estimate_generation_time (parameters : MusicalParameters) : ℚ :=
  min 2.0 (parameters.duration * 0.1)

/-- A concrete source parameter set (folk) used as `from_params`. -/
def mpFrom : MusicalParameters :=
  { tempo := 85, key := { tonic := "G", mode := "major" }
    time_signature := { numerator := 4, denominator := 4 }
    style := MusicStyle.FOLK
    primary_instruments := [InstrumentFamily.GUITAR] }

/-- A concrete target parameter set with the default duration `30.0`,
used as `to_params`. -/
def mpTo : MusicalParameters :=
  { tempo := 128, key := { tonic := "D", mode := "minor" }
    time_signature := { numerator := 4, denominator := 4 }
    style := MusicStyle.ELECTRONIC
    primary_instruments := [InstrumentFamily.SYNTHESIZER] }

/-- A concrete parameter set (ambient, default duration 30.0) used by the
C6 witness. -/
def mpAmbient : MusicalParameters :=
  { tempo := 72, key := { tonic := "C", mode := "major" }
    time_signature := { numerator := 4, denominator := 4 }
    style := MusicStyle.AMBIENT
    primary_instruments := [InstrumentFamily.SYNTHESIZER, InstrumentFamily.STRINGS] }

/-- An initialized mock vision processor used by witnesses. -/
def stReady : MockVisionProcessor :=
  { initialized := true
    supported_classes := MockVisionProcessor.new.supported_classes }

/-- The detection produced by `stReady` on a 640x480 frame under all-zero
draws: class "plant", confidence 0.6, box (0, 0, 50, 50). -/
def dMock : DetectedObject :=
  { object_id := "obj_0", class_name := "plant", confidence := 0.6
    bounding_box := { x := 0, y := 0, width := 50, height := 50 }
    timestamp := 0 }

/-- The digit value of a decimal digit character, computed from its
distance to the ASCII code of `'0'`. -/
def charToDigit? (c : Char) : Option Nat :=
  if c.isDigit then some (c.toNat - 48) else none

/-- Digit values of a list of characters, `none` if any is not a digit. -/
def charsToDigits? : List Char → Option (List Nat)
  | [] => some []
  | c :: cs =>
    match charToDigit? c, charsToDigits? cs with
    | some d, some ds => some (d :: ds)
    | _, _ => none

/-- Parse a nonempty list of decimal digit characters as a natural number
(most significant digit first). -/
def parseNatList (l : List Char) : Option Nat :=
  if l = [] then none
  else (charsToDigits? l).map (fun ds => ds.foldl (fun a d => 10 * a + d) 0)

/-- Parse an optionally `-`-signed decimal integer. -/
def parseIntList (l : List Char) : Option Int :=
  match l with
  | [] => none
  | c :: rest =>
    if c = '-' then (parseNatList rest).map (fun n => -(n : Int))
    else (parseNatList (c :: rest)).map (fun n => (n : Int))

/-- Split a character list at the first occurrence of `c`, returning the
parts before and after it. -/
def splitFirst (c : Char) : List Char → Option (List Char × List Char)
  | [] => none
  | x :: xs =>
    if x = c then some ([], xs)
    else (splitFirst c xs).map (fun p => (x :: p.1, p.2))

/-- Modelled from the spec: parse the serialized `"N/D"` time-signature
string back into a `TimeSignature` (src has no deserializer). -/
def parseTS (s : String) : Option TimeSignature :=
  match splitFirst '/' s.toList with
  | some (a, b) =>
    match parseIntList a, parseIntList b with
    | some n, some d => some { numerator := n, denominator := d }
    | _, _ => none
  | none => none

/-- Modelled from the spec: parse the serialized `"Tonic Mode"` key string
back into a `MusicalKey`, splitting at the first space and lowercasing the
title-cased mode (src has no deserializer). -/
def parseKey (s : String) : Option MusicalKey :=
  match splitFirst ' ' s.toList with
  | some (t, m) => some { tonic := String.mk t, mode := pyLower (String.mk m) }
  | none => none

/-- Inverse of `MusicStyle.value`. -/
def MusicStyle.ofValue? (s : String) : Option MusicStyle :=
  if s = "ambient" then some MusicStyle.AMBIENT
  else if s = "classical" then some MusicStyle.CLASSICAL
  else if s = "jazz" then some MusicStyle.JAZZ
  else if s = "electronic" then some MusicStyle.ELECTRONIC
  else if s = "folk" then some MusicStyle.FOLK
  else if s = "rock" then some MusicStyle.ROCK
  else if s = "world" then some MusicStyle.WORLD
  else if s = "experimental" then some MusicStyle.EXPERIMENTAL
  else none

/-- Inverse of `InstrumentFamily.value`. -/
def InstrumentFamily.ofValue? (s : String) : Option InstrumentFamily :=
  if s = "piano" then some InstrumentFamily.PIANO
  else if s = "strings" then some InstrumentFamily.STRINGS
  else if s = "brass" then some InstrumentFamily.BRASS
  else if s = "woodwinds" then some InstrumentFamily.WOODWINDS
  else if s = "percussion" then some InstrumentFamily.PERCUSSION
  else if s = "synthesizer" then some InstrumentFamily.SYNTHESIZER
  else if s = "guitar" then some InstrumentFamily.GUITAR
  else if s = "bass" then some InstrumentFamily.BASS
  else none

/-- Apply a fallible function to each element, failing if any application
fails. -/
def optMapM {α β : Type} (f : α → Option β) : List α → Option (List β)
  | [] => some []
  | a :: t => (f a).bind fun b => (optMapM f t).map fun bt => b :: bt

/-- Modelled from the spec: deserialize the flat record written by
`MusicalParameters.to_dict` back into a `MusicalParameters`.  The record
does not carry `fade_in`/`fade_out`, so these take the dataclass defaults
(2.0); an empty serialized secondary-instruments list deserializes to
`none` (the dataclass default), since `to_dict` maps `None` to `[]`. -/
def MusicalParameters.from_dict (d : ParamsDict) : Option MusicalParameters :=
  match parseKey d.key, parseTS d.time_signature, MusicStyle.ofValue? d.style,
      optMapM InstrumentFamily.ofValue? d.primary_instruments,
      optMapM InstrumentFamily.ofValue? d.secondary_instruments with
  | some k, some ts, some st, some prim, some sec =>
    some { tempo := d.tempo
           key := k
           time_signature := ts
           style := st
           primary_instruments := prim
           secondary_instruments := if sec = [] then none else some sec
           energy_level := d.energy_level
           complexity := d.complexity
           brightness := d.brightness
           tension := d.tension
           duration := d.duration
           harmonic_richness := d.harmonic_richness
           rhythmic_complexity := d.rhythmic_complexity
           melodic_range := d.melodic_range }
  | _, _, _, _, _ => none

/-- The seven letter tonic names of the spec's data model. -/
def keyTonics : List String := ["C", "D", "E", "F", "G", "A", "B"]

/-- The named modes of the spec's data model, in the source's lowercase
convention ("major, minor, dorian, etc."). -/
def keyModes : List String :=
  ["major", "minor", "dorian", "phrygian", "lydian",
   "mixolydian", "aeolian", "locrian"]

/-- Parameter set with a non-default fade-in, on which the round-trip
must fail. -/
def mpCex : MusicalParameters :=
  { tempo := 100, key := { tonic := "C", mode := "major" }
    time_signature := { numerator := 4, denominator := 4 }
    style := MusicStyle.AMBIENT
    primary_instruments := [InstrumentFamily.PIANO]
    fade_in := 0 }

/-- The result of the round trip on `mpCex`: identical except that
`fade_in` has been restored to the unserialized default `2.0`. -/
def mpCexRound : MusicalParameters :=
  { mpCex with fade_in := 2.0 }

/-- Witness for C3 (amended) at a concrete jazz parameter set with default
fades, key F major, and a present, nonempty secondary-instruments list. -/
def mpRich : MusicalParameters :=
  { tempo := 95, key := { tonic := "F", mode := "major" }
    time_signature := { numerator := 3, denominator := 4 }
    style := MusicStyle.JAZZ
    primary_instruments := [InstrumentFamily.PIANO, InstrumentFamily.BASS]
    secondary_instruments := some [InstrumentFamily.PERCUSSION] }

/-- C2.  For every `DetectedObject` and every threshold, `is_reliable`
returns `true` iff the object's confidence is `≥` the threshold; the
no-argument call uses the default threshold `0.7`. -/
theorem is_reliable_spec (d : DetectedObject) (t : ℚ) :
    (d.is_reliable t = true ↔ d.confidence ≥ t) ∧
    (d.is_reliable = true ↔ d.confidence ≥ 0.7) := by
  constructor
  · simp [DetectedObject.is_reliable]
  · simp [DetectedObject.is_reliable]

/-- C9.  `confidence_level` is `VERY_HIGH` for confidence `≥ 0.9`, `HIGH`
on `[0.75, 0.9)`, `MEDIUM` on `[0.5, 0.75)`, `LOW` below `0.5`, and the
categorical level is monotone in the numeric confidence. -/
theorem confidence_level_spec (d e : DetectedObject) :
    ((0.9 ≤ d.confidence → d.confidence_level = ConfidenceLevel.VERY_HIGH) ∧
     (0.75 ≤ d.confidence → d.confidence < 0.9 →
        d.confidence_level = ConfidenceLevel.HIGH) ∧
     (0.5 ≤ d.confidence → d.confidence < 0.75 →
        d.confidence_level = ConfidenceLevel.MEDIUM) ∧
     (d.confidence < 0.5 → d.confidence_level = ConfidenceLevel.LOW)) ∧
    (d.confidence ≤ e.confidence →
      levelRank d.confidence_level ≤ levelRank e.confidence_level) := by
  unfold DetectedObject.confidence_level
  constructor
  · refine ⟨?_, ?_, ?_, ?_⟩ <;> intros <;> split_ifs <;> first | rfl | linarith
  · intro hle
    split_ifs <;> simp [levelRank] <;> linarith

/-- Witness for C9 at concrete detections: confidence `0.95` is
`VERY_HIGH`, and the level of confidence `0.6` is no higher than the level
of confidence `0.95`. -/
theorem confidence_level_spec_witness :
    dVeryHigh.confidence_level = ConfidenceLevel.VERY_HIGH ∧
    levelRank dMedium.confidence_level ≤ levelRank dVeryHigh.confidence_level :=
  ⟨(confidence_level_spec dVeryHigh dMedium).1.1 (by norm_num [dVeryHigh]),
   (confidence_level_spec dMedium dVeryHigh).2 (by norm_num [dMedium, dVeryHigh])⟩

/-- C10.  A fresh `MockVisionProcessor` is uninitialized, and
`detect_objects` returns the empty list (rather than raising) on any state
whose `initialized` flag is still `false`, for every frame, every sequence
of random draws and every clock value. -/
theorem detect_objects_uninitialized :
    MockVisionProcessor.new.initialized = false ∧
    ∀ (st : MockVisionProcessor) (frame : Frame) (r : MockRandom) (now : ℚ),
      st.initialized = false → st.detect_objects frame r now = [] := by
  refine ⟨rfl, ?_⟩
  intro st frame r now h
  simp [MockVisionProcessor.detect_objects, h]

/-- Witness for C10: the fresh mock processor yields no detections on a
concrete 640x480 frame. -/
theorem detect_objects_uninitialized_witness :
    MockVisionProcessor.new.initialized = false ∧
    MockVisionProcessor.new.detect_objects ⟨480, 640⟩ rZero 0 = [] :=
  ⟨(detect_objects_uninitialized).1,
   (detect_objects_uninitialized).2 MockVisionProcessor.new ⟨480, 640⟩ rZero 0 rfl⟩

/-- C7.  `generate_music_params` never fails: objects present in the
mapping table get their table entry, and unknown objects get the default
neutral parameter set (style Ambient, tempo 80, key C Major). -/
theorem generate_music_params_spec (name : String) :
    (∀ entry, ObjectToMusicDemo.music_mappings.lookup name = some entry →
      ObjectToMusicDemo.generate_music_params name = entry) ∧
    (ObjectToMusicDemo.music_mappings.lookup name = none →
      ObjectToMusicDemo.generate_music_params name = ObjectToMusicDemo.default_params ∧
      ObjectToMusicDemo.default_params.style = "Ambient" ∧
      ObjectToMusicDemo.default_params.tempo = 80 ∧
      ObjectToMusicDemo.default_params.key = "C Major") := by
  constructor
  · intro entry h
    simp [ObjectToMusicDemo.generate_music_params, h]
  · intro h
    refine ⟨?_, rfl, rfl, rfl⟩
    simp [ObjectToMusicDemo.generate_music_params, h]

/-- Witness for C7: "plant" maps to its table entry and the unknown object
"window" maps to the default neutral parameter set. -/
theorem generate_music_params_spec_witness :
    ObjectToMusicDemo.generate_music_params "plant" =
      { style := "Ambient", tempo := 72, key := "C Major"
        instruments := ["Pad Synth", "Soft Strings"]
        mood := "Peaceful, Natural", sample_file := "plant_ambient.mp3" } ∧
    (ObjectToMusicDemo.generate_music_params "window" = ObjectToMusicDemo.default_params ∧
     ObjectToMusicDemo.default_params.style = "Ambient" ∧
     ObjectToMusicDemo.default_params.tempo = 80 ∧
     ObjectToMusicDemo.default_params.key = "C Major") :=
  ⟨(generate_music_params_spec "plant").1 _ (by decide),
   (generate_music_params_spec "window").2 (by decide)⟩

/-- C8 counterexample.  The `BoundingBox` dataclass performs no
validation: the box `(0, 0, 0, 0)` is constructible, its area is
`width * height = 0`, and it violates the claimed invariant
`width > 0 ∧ height > 0`. -/
theorem boundingBox_invariant_cex :
    (BoundingBox.mk 0 0 0 0).area = 0 ∧
    ¬ (0 < (BoundingBox.mk 0 0 0 0).width ∧ 0 < (BoundingBox.mk 0 0 0 0).height) := by
  decide

/-- C8 (amended).  Every `BoundingBox` has `area = width * height`; the
positivity invariant is not enforced by the constructor, but every
bounding box produced by `MockVisionProcessor.detect_objects` has width
and height in `[50, 150]`, hence positive. -/
theorem boundingBox_area_and_mock_positive :
    (∀ bb : BoundingBox, bb.area = bb.width * bb.height) ∧
    ∀ (st : MockVisionProcessor) (frame : Frame) (r : MockRandom) (now : ℚ)
      (d : DetectedObject), d ∈ st.detect_objects frame r now →
      0 < d.bounding_box.width ∧ 0 < d.bounding_box.height := by
  refine ⟨fun _ => rfl, ?_⟩
  intro st frame r now d hd
  unfold MockVisionProcessor.detect_objects at hd
  split at hd
  · simp at hd
  · simp only [List.mem_map, List.mem_range] at hd
    obtain ⟨i, _, rfl⟩ := hd
    constructor <;> positivity

theorem detBetter_irrefl (a : DetectedObject) : ¬ detBetter a a := by
  unfold detBetter
  push_neg
  exact ⟨le_refl _, fun _ => le_refl _⟩

theorem detBetter_trans {a b c : DetectedObject}
    (h₁ : detBetter a b) (h₂ : detBetter b c) : detBetter a c := by
  unfold detBetter at *
  rcases h₁ with h₁ | ⟨h₁, h₁'⟩ <;> rcases h₂ with h₂ | ⟨h₂, h₂'⟩
  · exact Or.inl (h₂.trans h₁)
  · exact Or.inl (h₂ ▸ h₁)
  · exact Or.inl (h₁ ▸ h₂)
  · exact Or.inr ⟨h₁.trans h₂, h₂'.trans h₁'⟩

/-- When `d` does not rank higher than `b`, either `b` ranks higher than
`d` or the two are tied in both confidence and area. -/
theorem detBetter_resolve {d b : DetectedObject} (h : ¬ detBetter d b) :
    detBetter b d ∨
      (d.confidence = b.confidence ∧ d.bounding_box.area = b.bounding_box.area) := by
  unfold detBetter at *
  push_neg at h
  rcases lt_trichotomy d.confidence b.confidence with hc | hc | hc
  · exact Or.inl (Or.inl hc)
  · rcases lt_trichotomy d.bounding_box.area b.bounding_box.area with ha | ha | ha
    · exact Or.inl (Or.inr ⟨hc.symm, ha⟩)
    · exact Or.inr ⟨hc, ha⟩
    · exact absurd ha (not_lt.mpr (h.2 hc))
  · exact absurd hc (not_lt.mpr h.1)

/-- Ranking higher is stable under replacing the lower side by a detection
tied with it in confidence and area. -/
theorem detBetter_congr {r d b : DetectedObject} (hr : detBetter r b)
    (hc : d.confidence = b.confidence) (ha : d.bounding_box.area = b.bounding_box.area) :
    detBetter r d := by
  unfold detBetter at *
  rw [hc, ha]
  exact hr

/-- Ranking higher is stable under replacing the higher side by a
detection tied with it in confidence and area. -/
theorem detBetter_congr_left {d b r : DetectedObject} (hd : detBetter d r)
    (hc : d.confidence = b.confidence) (ha : d.bounding_box.area = b.bounding_box.area) :
    detBetter b r := by
  unfold detBetter at *
  rw [← hc, ← ha]
  exact hd

/-- From `r` above `b` and `d` not above `b`, conclude `r` above `d`. -/
theorem detBetter_of_not {r d b : DetectedObject}
    (hr : detBetter r b) (hd : ¬ detBetter d b) : detBetter r d := by
  rcases detBetter_resolve hd with h | ⟨hc, ha⟩
  · exact detBetter_trans hr h
  · exact detBetter_congr hr hc ha

/-- From `d` above `r` and `d` not above `b`, conclude `b` above `r`. -/
theorem detBetter_of_not' {r d b : DetectedObject}
    (hd : detBetter d r) (hndb : ¬ detBetter d b) : detBetter b r := by
  rcases detBetter_resolve hndb with h | ⟨hc, ha⟩
  · exact detBetter_trans h hd
  · exact detBetter_congr_left hd hc ha

/-- No element of the fold's input (accumulator included) ranks higher
than the fold's result. -/
theorem pickBest_max :
    ∀ (l : List DetectedObject) (b : DetectedObject),
      ¬ detBetter b (pickBest b l) ∧ ∀ e ∈ l, ¬ detBetter e (pickBest b l) := by
  intro l
  induction l with
  | nil => exact fun b => ⟨detBetter_irrefl b, by simp⟩
  | cons d t ih =>
    intro b
    simp only [pickBest]
    split_ifs with hdb
    · obtain ⟨h₁, h₂⟩ := ih d
      refine ⟨fun hb => h₁ (detBetter_trans hdb hb), ?_⟩
      intro e he
      rcases List.mem_cons.mp he with rfl | he'
      · exact h₁
      · exact h₂ e he'
    · obtain ⟨h₁, h₂⟩ := ih b
      refine ⟨h₁, ?_⟩
      intro e he
      rcases List.mem_cons.mp he with rfl | he'
      · intro hd
        exact h₁ (detBetter_of_not' hd hdb)
      · exact h₂ e he'

/-- The fold's result is either the accumulator, or an element of the list
that ranks strictly higher than the accumulator and than every element
before it. -/
theorem pickBest_first :
    ∀ (l : List DetectedObject) (b : DetectedObject),
      pickBest b l = b ∨
      ∃ l₁ l₂, l = l₁ ++ pickBest b l :: l₂ ∧ detBetter (pickBest b l) b ∧
        ∀ e ∈ l₁, detBetter (pickBest b l) e := by
  intro l
  induction l with
  | nil => exact fun b => Or.inl rfl
  | cons d t ih =>
    intro b
    simp only [pickBest]
    split_ifs with hdb
    · set rr := pickBest d t with hrr
      rcases ih d with h | ⟨t₁, t₂, ht, hrd, hfirst⟩
      · rw [← hrr] at h
        refine Or.inr ⟨[], t, ?_, ?_, by simp⟩
        · simp [h]
        · rw [h]; exact hdb
      · rw [← hrr] at ht hrd hfirst
        refine Or.inr ⟨d :: t₁, t₂, by rw [ht]; rfl, detBetter_trans hrd hdb, ?_⟩
        intro e he
        rcases List.mem_cons.mp he with rfl | he'
        · exact hrd
        · exact hfirst e he'
    · set rr := pickBest b t with hrr
      rcases ih b with h | ⟨t₁, t₂, ht, hrb, hfirst⟩
      · rw [← hrr] at h
        exact Or.inl h
      · rw [← hrr] at ht hrb hfirst
        refine Or.inr ⟨d :: t₁, t₂, by rw [ht]; rfl, hrb, ?_⟩
        intro e he
        rcases List.mem_cons.mp he with rfl | he'
        · exact detBetter_of_not hrb hdb
        · exact hfirst e he'

/-- C1.  On every nonempty detection list, `selectDominant` returns the
detection with the highest confidence; among detections of equal
confidence, the one with the larger bounding-box area; among detections
equal in both, the earliest in the input ordering (every detection
preceding the selected one ranks strictly lower).  Selection is
deterministic: it is a pure function of the input list. -/
theorem selectDominant_spec (l : List DetectedObject) (h : l ≠ []) :
    ∃ d l₁ l₂, RealTimeMusicProcessor.selectDominant l = some d ∧
      l = l₁ ++ d :: l₂ ∧
      (∀ e ∈ l, e.confidence ≤ d.confidence) ∧
      (∀ e ∈ l, e.confidence = d.confidence →
        e.bounding_box.area ≤ d.bounding_box.area) ∧
      (∀ e ∈ l₁, e.confidence < d.confidence ∨
        (e.confidence = d.confidence ∧
          e.bounding_box.area < d.bounding_box.area)) ∧
      (∀ l', l' = l →
        RealTimeMusicProcessor.selectDominant l' =
          RealTimeMusicProcessor.selectDominant l) := by
  obtain ⟨b, t, rfl⟩ := List.exists_cons_of_ne_nil h
  set r := pickBest b t with hr
  obtain ⟨hmaxb, hmaxt⟩ := pickBest_max t b
  have hmax : ∀ e ∈ b :: t, ¬ detBetter e r := by
    intro e he
    rcases List.mem_cons.mp he with rfl | he'
    · exact hmaxb
    · exact hmaxt e he'
  have hconf : ∀ e ∈ b :: t, e.confidence ≤ r.confidence := by
    intro e he
    by_contra hlt
    exact hmax e he (Or.inl (lt_of_not_le hlt))
  have harea : ∀ e ∈ b :: t, e.confidence = r.confidence →
      e.bounding_box.area ≤ r.bounding_box.area := by
    intro e he hc
    by_contra hlt
    exact hmax e he (Or.inr ⟨hc, lt_of_not_le hlt⟩)
  rcases pickBest_first t b with heq | ⟨t₁, t₂, ht, hrb, hfirst⟩
  · refine ⟨r, [], t, rfl, ?_, hconf, harea, by simp, fun _ h => by rw [h]⟩
    rw [← hr] at heq
    rw [heq]
    rfl
  · refine ⟨r, b :: t₁, t₂, rfl, ?_, hconf, harea, ?_, fun _ h => by rw [h]⟩
    · rw [← hr] at ht
      rw [ht]
      rfl
    · intro e he
      have hb : detBetter r e := by
        rcases List.mem_cons.mp he with rfl | he'
        · exact hrb
        · exact hfirst e he'
      rcases hb with h | ⟨h₁, h₂⟩
      · exact Or.inl h
      · exact Or.inr ⟨h₁.symm, h₂⟩

/-- Witness for C1 at the spec's own example list
`[(classA, conf 0.8, area 100), (classB, conf 0.8, area 200)]`. -/
theorem selectDominant_spec_witness :
    [dTieA, dTieB] ≠ [] ∧
    ∃ d l₁ l₂, RealTimeMusicProcessor.selectDominant [dTieA, dTieB] = some d ∧
      [dTieA, dTieB] = l₁ ++ d :: l₂ ∧
      (∀ e ∈ [dTieA, dTieB], e.confidence ≤ d.confidence) ∧
      (∀ e ∈ [dTieA, dTieB], e.confidence = d.confidence →
        e.bounding_box.area ≤ d.bounding_box.area) ∧
      (∀ e ∈ l₁, e.confidence < d.confidence ∨
        (e.confidence = d.confidence ∧
          e.bounding_box.area < d.bounding_box.area)) ∧
      (∀ l', l' = [dTieA, dTieB] →
        RealTimeMusicProcessor.selectDominant l' =
          RealTimeMusicProcessor.selectDominant [dTieA, dTieB]) :=
  ⟨by decide, selectDominant_spec [dTieA, dTieB] (by decide)⟩

/-- C5.  `MockMusicGenerator.generate_transition` does NOT leave its
arguments unchanged: at the concrete input `(mpFrom, mpTo)` with
transition duration `4.0`, the `from_params` instance is returned
unchanged but the `to_params` instance comes back with its `duration`
field overwritten to `4.0` (it was `30.0`), because the Python body
executes `to_params.duration = transition_duration` on the caller's
instance. -/
theorem generate_transition_mutates_to_params :
    (MockMusicGenerator.generate_transition mpFrom mpTo 4.0 0).1 = mpFrom ∧
    (MockMusicGenerator.generate_transition mpFrom mpTo 4.0 0).2.1.duration = 4.0 ∧
    mpTo.duration = 30.0 ∧
    (MockMusicGenerator.generate_transition mpFrom mpTo 4.0 0).2.1 ≠ mpTo := by
  refine ⟨rfl, rfl, rfl, fun h => ?_⟩
  have hbad : (4.0 : ℚ) = 30.0 := by
    calc (4.0 : ℚ)
        = (MockMusicGenerator.generate_transition mpFrom mpTo 4.0 0).2.1.duration := rfl
      _ = mpTo.duration := by rw [h]
      _ = 30.0 := rfl
  norm_num at hbad

/-- C6.  For every parameter set with nonnegative duration (and every
clock value), the audio produced by `MockMusicGenerator.generate_music`
has its `duration` field within `1/44100` of the sample-buffer length
divided by the sample rate. -/
theorem generate_music_duration_consistent (p : MusicalParameters) (now : ℚ)
    (hd : 0 ≤ p.duration) :
    |(MockMusicGenerator.generate_music p now).duration -
      ((MockMusicGenerator.generate_music p now).audio_data.length : ℚ) /
        ((MockMusicGenerator.generate_music p now).sample_rate : ℚ)| < 1 / 44100 := by
  simp only [MockMusicGenerator.generate_music, List.length_replicate]
  set x := min p.duration 10 with hx
  have hx0 : 0 ≤ x := le_min hd (by norm_num)
  have hq0 : (0:ℚ) ≤ 44100 * x := by positivity
  have hpy : pyInt (44100 * x) = ⌊(44100:ℚ) * x⌋ := by
    unfold pyInt
    rw [if_neg (not_lt.mpr hq0)]
  rw [hpy]
  have hfl0 : (0:ℤ) ≤ ⌊(44100:ℚ) * x⌋ := Int.floor_nonneg.mpr hq0
  have hcast : ((⌊(44100:ℚ) * x⌋.toNat : ℚ)) = ((⌊(44100:ℚ) * x⌋ : ℤ) : ℚ) := by
    norm_cast
    exact Int.toNat_of_nonneg hfl0
  rw [hcast]
  have h1 : ((⌊(44100:ℚ) * x⌋ : ℤ) : ℚ) ≤ 44100 * x := Int.floor_le _
  have h2 : 44100 * x - 1 < ((⌊(44100:ℚ) * x⌋ : ℤ) : ℚ) := Int.sub_one_lt_floor _
  rw [abs_sub_lt_iff]
  push_cast
  constructor <;> [linarith; linarith]

/-- Witness for C6 at the concrete parameter set `mpAmbient`
(duration 30.0 ≥ 0). -/
theorem generate_music_duration_consistent_witness :
    0 ≤ mpAmbient.duration ∧
    |(MockMusicGenerator.generate_music mpAmbient 0).duration -
      ((MockMusicGenerator.generate_music mpAmbient 0).audio_data.length : ℚ) /
        ((MockMusicGenerator.generate_music mpAmbient 0).sample_rate : ℚ)| < 1 / 44100 :=
  ⟨by norm_num [mpAmbient], generate_music_duration_consistent mpAmbient 0 (by norm_num [mpAmbient])⟩

/-- Witness for C8 (amended): `dMock` is produced by the mock detector on
a concrete frame and has positive width and height. -/
theorem boundingBox_area_and_mock_positive_witness :
    dMock ∈ stReady.detect_objects ⟨480, 640⟩ rZero 0 ∧
    0 < dMock.bounding_box.width ∧ 0 < dMock.bounding_box.height :=
  have hmem : dMock ∈ stReady.detect_objects ⟨480, 640⟩ rZero 0 := by
    simp only [MockVisionProcessor.detect_objects, stReady, rZero, dMock,
      MockVisionProcessor.new]
    norm_num [clamp01, List.range_succ, pyNatStr, natDigitsRev, digitChar]
    decide
  ⟨hmem, boundingBox_area_and_mock_positive.2 stReady ⟨480, 640⟩ rZero 0 dMock hmem⟩

theorem natDigitsRevAux_congr :
    ∀ f₁, ∀ f₂ n : Nat, n ≤ f₁ → n ≤ f₂ →
      natDigitsRevAux f₁ n = natDigitsRevAux f₂ n := by
  intro f₁
  induction f₁ using Nat.strong_induction_on with
  | _ f₁ ih =>
    intro f₂ n h1 h2
    match n, f₁, f₂, h1, h2 with
    | 0, f₁, f₂, _, _ =>
      cases f₁ <;> cases f₂ <;> rfl
    | m + 1, g₁ + 1, g₂ + 1, _, _ =>
      show ((m + 1) % 10) :: natDigitsRevAux g₁ ((m + 1) / 10) =
        ((m + 1) % 10) :: natDigitsRevAux g₂ ((m + 1) / 10)
      congr 1
      exact ih g₁ (by omega) g₂ ((m + 1) / 10) (by omega) (by omega)

theorem natDigitsRev_succ (n : Nat) :
    natDigitsRev (n + 1) = ((n + 1) % 10) :: natDigitsRev ((n + 1) / 10) := by
  show natDigitsRevAux (n + 1) (n + 1) =
    ((n + 1) % 10) :: natDigitsRevAux ((n + 1) / 10) ((n + 1) / 10)
  show ((n + 1) % 10) :: natDigitsRevAux n ((n + 1) / 10) =
    ((n + 1) % 10) :: natDigitsRevAux ((n + 1) / 10) ((n + 1) / 10)
  congr 1
  exact natDigitsRevAux_congr n ((n + 1) / 10) ((n + 1) / 10) (by omega) (le_refl _)

theorem charToDigit?_digitChar {d : Nat} (h : d ≤ 9) :
    charToDigit? (digitChar d) = some d := by
  interval_cases d <;> rfl

theorem digitChar_isDigit (d : Nat) : (digitChar d).isDigit = true := by
  unfold digitChar
  rcases Nat.le_total d 9 with h | h
  · interval_cases d <;> decide
  · rw [min_eq_right h]
    decide

theorem natDigitsRev_le (n : Nat) : ∀ d ∈ natDigitsRev n, d ≤ 9 := by
  induction n using Nat.strong_induction_on with
  | _ n ih =>
    match n with
    | 0 => simp [natDigitsRev, natDigitsRevAux]
    | m + 1 =>
      rw [natDigitsRev_succ]
      intro d hd
      rcases List.mem_cons.mp hd with rfl | hd'
      · omega
      · exact ih ((m + 1) / 10) (Nat.div_lt_self (Nat.succ_pos m) (by omega)) d hd'

theorem charsToDigits?_map {ds : List Nat} (h : ∀ d ∈ ds, d ≤ 9) :
    charsToDigits? (ds.map digitChar) = some ds := by
  induction ds with
  | nil => rfl
  | cons d t ih =>
    simp only [List.map_cons, charsToDigits?,
      charToDigit?_digitChar (h d (List.mem_cons_self d t)),
      ih (fun e he => h e (List.mem_cons_of_mem d he))]

theorem foldl_natDigitsRev (n : Nat) : ∀ a : Nat,
    ((natDigitsRev n).reverse).foldl (fun x d => 10 * x + d) a =
      a * 10 ^ (natDigitsRev n).length + n := by
  induction n using Nat.strong_induction_on with
  | _ n ih =>
    match n with
    | 0 => intro a; simp [natDigitsRev, natDigitsRevAux]
    | m + 1 =>
      intro a
      rw [natDigitsRev_succ]
      simp only [List.reverse_cons, List.foldl_append, List.foldl_cons,
        List.foldl_nil, List.length_cons]
      rw [ih ((m + 1) / 10) (Nat.div_lt_self (Nat.succ_pos m) (by omega)) a]
      have hmod := Nat.div_add_mod (m + 1) 10
      ring_nf
      omega

theorem parseNatList_pyNatStr (n : Nat) :
    parseNatList (pyNatStr n).toList = some n := by
  by_cases h0 : n = 0
  · subst h0
    decide
  · unfold pyNatStr
    rw [if_neg h0]
    have hne : (natDigitsRev n).reverse.map digitChar ≠ [] := by
      match n, h0 with
      | m + 1, _ =>
        rw [natDigitsRev_succ]
        simp
    have hstr : (String.mk ((natDigitsRev n).reverse.map digitChar)).toList =
        (natDigitsRev n).reverse.map digitChar := rfl
    rw [hstr]
    unfold parseNatList
    rw [if_neg hne]
    rw [charsToDigits?_map (fun d hd => natDigitsRev_le n d (List.mem_reverse.mp hd))]
    simp [foldl_natDigitsRev n 0]

theorem toList_append (a b : String) : (a ++ b).toList = a.toList ++ b.toList := rfl

theorem pyNatStr_chars (n : Nat) :
    ∀ c ∈ (pyNatStr n).toList, c.isDigit = true := by
  unfold pyNatStr
  split_ifs with h0
  · decide
  · intro c hc
    have hc' : c ∈ (natDigitsRev n).reverse.map digitChar := hc
    obtain ⟨d, _, rfl⟩ := List.mem_map.mp hc'
    exact digitChar_isDigit d

theorem parseIntList_no_dash {l : List Char} (hne : l ≠ []) (h : '-' ∉ l) :
    parseIntList l = (parseNatList l).map (fun n => (n : Int)) := by
  match l, hne with
  | c :: rest, _ =>
    have hc : ¬ (c = '-') := fun hc => h (hc ▸ List.mem_cons_self c rest)
    simp only [parseIntList, if_neg hc]

theorem pyNatStr_ne_nil (n : Nat) : (pyNatStr n).toList ≠ [] := by
  unfold pyNatStr
  split_ifs with h0
  · decide
  · match n, h0 with
    | m + 1, _ =>
      rw [natDigitsRev_succ]
      simp

theorem parseIntList_pyIntStr (i : Int) :
    parseIntList (pyIntStr i).toList = some i := by
  unfold pyIntStr
  split_ifs with hneg
  · rw [toList_append]
    have hdash : ("-" : String).toList = ['-'] := rfl
    rw [hdash]
    have habs : -((i.natAbs : Nat) : Int) = i := by omega
    have hp : parseNatList (pyNatStr i.natAbs).data = some i.natAbs :=
      parseNatList_pyNatStr i.natAbs
    simp [parseIntList, hp, habs]
    rw [abs_of_neg hneg, neg_neg]
  · have habs : ((i.natAbs : Nat) : Int) = i := by omega
    rw [parseIntList_no_dash (pyNatStr_ne_nil i.natAbs) ?hnd]
    case hnd =>
      intro hmem
      exact absurd (pyNatStr_chars i.natAbs _ hmem) (by decide)
    rw [parseNatList_pyNatStr i.natAbs]
    simp [habs]

theorem splitFirst_append (c : Char) (a b : List Char) (h : c ∉ a) :
    splitFirst c (a ++ c :: b) = some (a, b) := by
  induction a with
  | nil => simp [splitFirst]
  | cons x xs ih =>
    have hx : ¬ (x = c) := fun hx => h (hx ▸ List.mem_cons_self x xs)
    have ih' := ih (fun hc => h (List.mem_cons_of_mem x hc))
    show splitFirst c (x :: (xs ++ c :: b)) = some (x :: xs, b)
    simp only [splitFirst, if_neg hx, ih']
    rfl

theorem pyIntStr_no_slash (i : Int) : '/' ∉ (pyIntStr i).toList := by
  intro hmem
  unfold pyIntStr at hmem
  split_ifs at hmem with hneg
  · rw [toList_append] at hmem
    rcases List.mem_append.mp hmem with hm | hm
    · exact absurd hm (by decide)
    · exact absurd (pyNatStr_chars i.natAbs _ hm) (by decide)
  · exact absurd (pyNatStr_chars i.natAbs _ hmem) (by decide)

theorem parseTS_toStr (ts : TimeSignature) : parseTS ts.toStr = some ts := by
  unfold TimeSignature.toStr parseTS
  have hsl : ("/" : String).toList = ['/'] := rfl
  have hsplit : ((pyIntStr ts.numerator ++ "/" ++ pyIntStr ts.denominator) : String).toList =
      (pyIntStr ts.numerator).toList ++ '/' :: (pyIntStr ts.denominator).toList := by
    rw [toList_append, toList_append, hsl, List.append_assoc]
    rfl
  rw [hsplit, splitFirst_append _ _ _ (pyIntStr_no_slash ts.numerator)]
  have hn : parseIntList (pyIntStr ts.numerator).data = some ts.numerator :=
    parseIntList_pyIntStr ts.numerator
  have hd : parseIntList (pyIntStr ts.denominator).data = some ts.denominator :=
    parseIntList_pyIntStr ts.denominator
  simp [hn, hd]

theorem parseKey_toStr (t m : String) (ht : t ∈ keyTonics) (hm : m ∈ keyModes) :
    parseKey (MusicalKey.toStr { tonic := t, mode := m }) =
      some { tonic := t, mode := m } := by
  fin_cases ht <;> fin_cases hm <;> decide

theorem MusicStyle.ofValue?_value_style (s : MusicStyle) :
    MusicStyle.ofValue? s.value = some s := by
  cases s <;> decide

theorem InstrumentFamily.ofValue?_value_family (f : InstrumentFamily) :
    InstrumentFamily.ofValue? f.value = some f := by
  cases f <;> decide

theorem optMapM_ofValue?_map (l : List InstrumentFamily) :
    optMapM InstrumentFamily.ofValue? (l.map InstrumentFamily.value) = some l := by
  induction l with
  | nil => rfl
  | cons f t ih =>
    simp [optMapM, InstrumentFamily.ofValue?_value_family, ih]

/-- C3 (amended).  Serializing and then deserializing a
`MusicalParameters` yields field-for-field equality whenever the instance
carries the default fades (2.0 — the serialized record omits
`fade_in`/`fade_out`), its key uses one of the seven letter tonics with a
lowercase named mode (so the title-cased key string parses back), and its
secondary-instruments field is not an empty-but-present list (since
`to_dict` collapses `None` and `[]`). -/
theorem to_dict_from_dict_roundtrip (p : MusicalParameters)
    (hfi : p.fade_in = 2.0) (hfo : p.fade_out = 2.0)
    (ht : p.key.tonic ∈ keyTonics) (hm : p.key.mode ∈ keyModes)
    (hs : p.secondary_instruments ≠ some []) :
    MusicalParameters.from_dict p.to_dict = some p := by
  obtain ⟨tempo, key, ts, style, prim, sec, el, cx, br, tn, du, fi, fo, hr, rc, mr⟩ := p
  obtain ⟨kt, km⟩ := key
  dsimp only at hfi hfo ht hm hs ⊢
  subst hfi hfo
  unfold MusicalParameters.to_dict MusicalParameters.from_dict
  dsimp only
  rw [parseKey_toStr kt km ht hm, parseTS_toStr, MusicStyle.ofValue?_value_style,
    optMapM_ofValue?_map]
  rcases sec with _ | l
  · simp [optMapM]
  · have hl : l ≠ [] := fun h => hs (by rw [h])
    rw [optMapM_ofValue?_map]
    simp [hl]

/-- C3 counterexample.  The serialized record drops `fade_in`/`fade_out`,
so round-tripping `mpCex` (which has `fade_in = 0`) cannot restore it:
the round trip returns `mpCexRound` (`fade_in = 2.0`), not `mpCex`. -/
theorem to_dict_from_dict_not_id :
    MusicalParameters.from_dict mpCex.to_dict = some mpCexRound ∧
    MusicalParameters.from_dict mpCex.to_dict ≠ some mpCex := by
  have hcomp : MusicalParameters.from_dict mpCex.to_dict = some mpCexRound := by
    unfold mpCex mpCexRound MusicalParameters.to_dict MusicalParameters.from_dict
    dsimp only
    rw [parseKey_toStr "C" "major" (by decide) (by decide), parseTS_toStr,
      MusicStyle.ofValue?_value_style, optMapM_ofValue?_map]
    simp [optMapM, mpCex]
  refine ⟨hcomp, fun h => ?_⟩
  rw [hcomp] at h
  have h2 := congrArg MusicalParameters.fade_in (Option.some.inj h)
  have h3 : (2.0 : ℚ) = 0 := h2
  norm_num at h3

theorem to_dict_from_dict_roundtrip_witness :
    (mpRich.fade_in = 2.0 ∧ mpRich.fade_out = 2.0 ∧
     mpRich.key.tonic ∈ keyTonics ∧ mpRich.key.mode ∈ keyModes ∧
     mpRich.secondary_instruments ≠ some []) ∧
    MusicalParameters.from_dict mpRich.to_dict = some mpRich :=
  ⟨⟨rfl, rfl, by decide, by decide, by decide⟩,
   to_dict_from_dict_roundtrip mpRich rfl rfl (by decide) (by decide) (by decide)⟩

/-- C4.  The serialized form of a `MusicalParameters` is the flat record
with exactly the fourteen fields of `ParamsDict`: raw tempo, the key
rendered as `"Tonic Mode"` (mode title-cased), the time signature rendered
as `"N/D"`, the style tag, the instrument tag lists (a missing secondary
list becoming `[]`), the four emotional dials, duration, harmonic
richness, rhythmic complexity and melodic range. -/
theorem to_dict_flat_record (p : MusicalParameters) :
    p.to_dict =
      { tempo := p.tempo
        key := p.key.tonic ++ " " ++ pyTitle p.key.mode
        time_signature :=
          pyIntStr p.time_signature.numerator ++ "/" ++ pyIntStr p.time_signature.denominator
        style := p.style.value
        primary_instruments := p.primary_instruments.map InstrumentFamily.value
        secondary_instruments :=
          ((p.secondary_instruments.getD []).map InstrumentFamily.value)
        energy_level := p.energy_level
        complexity := p.complexity
        brightness := p.brightness
        tension := p.tension
        duration := p.duration
        harmonic_richness := p.harmonic_richness
        rhythmic_complexity := p.rhythmic_complexity
        melodic_range := p.melodic_range } ∧
    MusicalKey.toStr { tonic := "C", mode := "major" } = "C Major" ∧
    TimeSignature.toStr { numerator := 3, denominator := 4 } = "3/4" := by
  refine ⟨?_, by decide, by decide⟩
  rcases p with ⟨tempo, key, ts, style, prim, sec, el, cx, br, tn, du, fi, fo, hr, rc, mr⟩
  rcases sec with _ | l <;> rfl
